import Mathlib

/-!
Verification of the OAuth2 token-lifecycle core of the qbo-mcp repository.

The definitions below are a shallow embedding of the Python sources:

- src/qbo_mcp/auth.py             (QBOTokenManager, AutoQBOAuthenticator, CallbackHandler)
- src/qbo_mcp/oauth_flow.py       (run_interactive_oauth, OAuthHandler)
- src/qbo_mcp/utils/auth.py       (load_tokens variant)
- src/qbo_mcp/services/qbo.py     (load_tokens variant)

Conventions of the embedding:

- Machine timestamps are modeled as natural numbers; the Python calls
  datetime.isoformat / datetime.fromisoformat are modeled as the decimal
  encoding of a Nat and its parser (a string that fails to parse models a
  ValueError from fromisoformat).
- The duck-typed token dict held by QBOTokenManager is modeled as a record
  of optional string fields (a missing key and a JSON null are both `none`,
  which is observationally equivalent for every accessor in the source).
- File-system state is the inductive TokenFile: the file can be absent,
  unreadable (OSError on open), malformed (JSONDecodeError), or hold a JSON
  object, modeled as an association list of optional string values.
- Effectful operations (token refresh, code exchange, revocation, callback
  server lifecycle, browser launch) are recorded in an explicit list of
  Effect values returned alongside the result, and the outcomes of the
  external OAuth endpoints are supplied as parameters (none models a raised
  exception).
- The callback channel written by the HTTP handler thread and polled by the
  waiting loop is modeled as a function from the poll second to the value
  the shared class attribute holds at that moment.
-/

namespace QboMcp

/-- Value of a decimal digit character, none for anything else. -/
def digitOf (c : Char) : Option Nat :=
  if 48 ≤ c.toNat ∧ c.toNat ≤ 57 then some (c.toNat - 48) else none

/-- Decimal parse of a character list, accumulator style. -/
def parseDigits : List Char → Nat → Option Nat
  | [], acc => some acc
  | c :: cs, acc =>
    match digitOf c with
    | none => none
    | some d => parseDigits cs (acc * 10 + d)

/-- Models datetime.fromisoformat: timestamps are decimal-encoded naturals;
a parse failure on the empty or non-numeric string models the ValueError
the Python call raises there. -/
def fromisoformat (s : String) : Option Nat :=
  match s.data with
  | [] => none
  | cs => parseDigits cs 0

/-- Models datetime.isoformat on the Nat-encoded timestamps. -/
def isoformat (t : Nat) : String :=
  toString t

/-- Character-list recursion behind strStartsWith. -/
def charsStartWith : List Char → List Char → Bool
  | _, [] => true
  | [], _ :: _ => false
  | c :: cs, d :: ds => c == d && charsStartWith cs ds

/-- Models Python str.startswith on the underlying character lists. -/
def strStartsWith (s p : String) : Bool :=
  charsStartWith s.data p.data

/-- Python truthiness of an optional string: None and the empty string are
falsy, every other string is truthy. -/
def truthy : Option String → Bool
  | none => false
  | some s => s != ""

/-- The token dict of QBOTokenManager (auth.py lines 85-96 fix these five
keys); each field is `none` when the key is missing or null. -/
structure Tokens where
  access_token : Option String
  refresh_token : Option String
  company_id : Option String
  expires_at : Option String
  created_at : Option String
  deriving DecidableEq, Repr

/-- The empty dict the manager starts from and resets to. -/
def Tokens.empty : Tokens :=
  ⟨none, none, none, none, none⟩

/-- Python `not self._tokens`: the dict is empty. -/
def Tokens.isEmpty (t : Tokens) : Bool :=
  t.access_token.isNone && t.refresh_token.isNone && t.company_id.isNone &&
    t.expires_at.isNone && t.created_at.isNone

/-- The JSON object json.dump writes for a token dict (auth.py lines 90-96):
exactly the five keys of store_tokens, in source order. -/
def Tokens.toJson (t : Tokens) : List (String × Option String) :=
  [("access_token", t.access_token), ("refresh_token", t.refresh_token),
   ("company_id", t.company_id), ("expires_at", t.expires_at),
   ("created_at", t.created_at)]

/-- Reading a token dict back from a parsed JSON object. -/
def tokensFromJson (e : List (String × Option String)) : Tokens :=
  { access_token := (e.lookup "access_token").join,
    refresh_token := (e.lookup "refresh_token").join,
    company_id := (e.lookup "company_id").join,
    expires_at := (e.lookup "expires_at").join,
    created_at := (e.lookup "created_at").join }

/-- State of the token file on disk. -/
inductive TokenFile where
  | absent
  | unreadable
  | malformed
  | json (entries : List (String × Option String))
  deriving DecidableEq, Repr

/-- Combined state of a QBOTokenManager: the in-memory dict and the file. -/
structure TMState where
  tokens : Tokens
  file : TokenFile
  deriving DecidableEq, Repr

/-- A freshly initialized manager with no token file. -/
def TMState.init : TMState :=
  ⟨Tokens.empty, TokenFile.absent⟩

/-- QBOTokenManager._load_tokens (auth.py lines 64-73): a present, readable,
well-formed file is parsed; every failure (missing file, OSError, bad JSON)
leaves the empty dict. The function is total: no state of the file makes it
raise. -/
def load_tokens : TokenFile → Tokens
  | TokenFile.json e => tokensFromJson e
  | _ => Tokens.empty

/-- load_tokens of utils/auth.py lines 46-70: returns the raw dict, or the
empty dict on a missing/unreadable/malformed file or when the refresh_token
key is missing. Total as well. -/
def load_tokens_utils : TokenFile → List (String × Option String)
  | TokenFile.json e => if (e.lookup "refresh_token").isSome then e else []
  | _ => []

/-- load_tokens of services/qbo.py lines 29-36: the missing-file case
returns the empty dict, but open/json.load are not guarded, so an
unreadable or malformed file propagates the exception (modeled as
Except.error naming the Python exception type). -/
def load_tokens_qbo : TokenFile → Except String (List (String × Option String))
  | TokenFile.absent => Except.ok []
  | TokenFile.unreadable => Except.error "OSError"
  | TokenFile.malformed => Except.error "JSONDecodeError"
  | TokenFile.json e => Except.ok e

/-- QBOTokenManager.get_access_token (auth.py lines 99-113): none on an
empty dict, none when expires_at is missing or unparseable (ValueError
caught), none when expired, otherwise whatever the access_token key holds.
The method only reads the dict; it never mutates it, which the pure type
reflects. -/
def get_access_token (now : Nat) (t : Tokens) : Option String :=
  if t.isEmpty = true then none
  else
    match fromisoformat (t.expires_at.getD "") with
    | none => none
    | some exp => if exp ≤ now then none else t.access_token

/-- QBOTokenManager.get_refresh_token (auth.py lines 115-117). -/
def get_refresh_token (t : Tokens) : Option String :=
  t.refresh_token

/-- QBOTokenManager.get_company_id (auth.py lines 119-121). -/
def get_company_id (t : Tokens) : Option String :=
  t.company_id

/-- QBOTokenManager.is_authenticated (auth.py lines 130-133). -/
def is_authenticated (now : Nat) (t : Tokens) : Bool :=
  (get_access_token now t).isSome && (get_company_id t).isSome

/-- QBOTokenManager.store_tokens followed by _save_tokens (auth.py lines
75-97): replaces the dict wholesale with the five fixed keys and writes the
same object to the file. -/
def store_tokens (now : Nat) (access refresh : String) (company : Option String)
    (expires_in : Nat) : TMState :=
  let tks : Tokens :=
    { access_token := some access, refresh_token := some refresh,
      company_id := company, expires_at := some (isoformat (now + expires_in)),
      created_at := some (isoformat now) }
  ⟨tks, TokenFile.json tks.toJson⟩

/-- QBOTokenManager.clear_tokens (auth.py lines 123-128): empties the dict
and unlinks the file if it exists (idempotent on the file). -/
def clear_tokens (_st : TMState) : TMState :=
  TMState.init

/-- Observable side effects of the authenticator: the three network
operations against the OAuth endpoints, the callback-listener lifecycle,
and the browser launch. -/
inductive Effect where
  | refreshCall
  | exchangeCall
  | revokeCall
  | serverStart
  | serverStop
  | browserOpen
  deriving DecidableEq, Repr

/-- Token set returned by a successful intuitlib call (refresh or bearer
token exchange): the client then exposes access_token, refresh_token and
x_refresh_token_expires_in (the latter may be Python None). -/
structure RefreshData where
  access_token : String
  refresh_token : String
  x_refresh_token_expires_in : Option Nat
  deriving DecidableEq, Repr

/-- Python `x or 3600` on an optional integer: None and 0 are falsy. -/
def orIntDefault (o : Option Nat) (d : Nat) : Nat :=
  match o with
  | none => d
  | some n => if n = 0 then d else n

/-- AutoQBOAuthenticator._refresh_tokens (auth.py lines 255-278). The
outcome of auth_client.refresh() is a parameter: `none` models a raised
exception (caught, method returns False), `some d` a successful refresh.
On success the manager stores the tokens the client now holds, keeping the
previously stored company id. -/
def refresh_tokens (now : Nat) (st : TMState) (outcome : Option RefreshData) :
    Bool × TMState × List Effect :=
  if truthy (get_refresh_token st.tokens) = false then (false, st, [])
  else
    match outcome with
    | none => (false, st, [Effect.refreshCall])
    | some d =>
        (true,
         store_tokens now d.access_token d.refresh_token
           (get_company_id st.tokens) (orIntDefault d.x_refresh_token_expires_in 3600),
         [Effect.refreshCall])

/-- Outcome of the polling loop of _perform_oauth_flow: either the parsed
query parameters of the captured callback URL, or the 300-second timeout
fired. -/
inductive WaitResult where
  | got (params : List (String × String))
  | timedOut
  deriving DecidableEq, Repr

/-- The wait loop of _perform_oauth_flow (auth.py lines 204-212): each
second it first checks the shared callback slot, then returns failure once
more than 300 seconds have elapsed, else sleeps one second. `cb n` is the
value of CallbackHandler.callback_url (already parsed with
urlparse/parse_qs) at second n. The extra fuel argument makes the
definition structural; `none` means the fuel ran out while the loop was
still waiting, which cannot happen from fuel 302 (see wait_timeout_fires
and the flow theorems, which treat it as a timeout). -/
def wait_for_callback (cb : Nat → Option (List (String × String))) :
    Nat → Nat → Option WaitResult
  | _, 0 => none
  | elapsed, fuel + 1 =>
    match cb elapsed with
    | some ps => some (WaitResult.got ps)
    | none =>
        if 300 < elapsed then some WaitResult.timedOut
        else wait_for_callback cb (elapsed + 1) fuel

/-- Python `key in query_params` on the parse_qs result. -/
def hasParam (q : List (String × String)) (k : String) : Bool :=
  (q.lookup k).isSome

/-- Python `query_params.get(key, [None])[0]`: the first value of the key. -/
def firstParam (q : List (String × String)) (k : String) : Option String :=
  q.lookup k

/-- External environment of one run of _perform_oauth_flow: configuration
completeness, whether binding the callback server raises, whether building
the authorization URL raises, the callback channel over time, and the
outcome of the bearer-token exchange (`none` models an exception). -/
structure OAuthEnv where
  configured : Bool
  server_start_ok : Bool
  auth_url_ok : Bool
  callback : Nat → Option (List (String × String))
  exchange : Option RefreshData
  now : Nat

/-- AutoQBOAuthenticator._perform_oauth_flow (auth.py lines 180-253),
returning (result, manager state, ordered effect trace). Every exception
inside the try block is caught and turns into a False return; the finally
clause stops the callback server, which is a no-op when the server was
never started (config incomplete or bind failure), hence those traces carry
no serverStop. -/
def perform_oauth_flow (env : OAuthEnv) (st : TMState) :
    Bool × TMState × List Effect :=
  if env.configured = false then (false, st, [])
  else if env.server_start_ok = false then (false, st, [])
  else if env.auth_url_ok = false then
    (false, st, [Effect.serverStart, Effect.serverStop])
  else
    match wait_for_callback env.callback 0 302 with
    | none =>
        (false, st, [Effect.serverStart, Effect.browserOpen, Effect.serverStop])
    | some WaitResult.timedOut =>
        (false, st, [Effect.serverStart, Effect.browserOpen, Effect.serverStop])
    | some (WaitResult.got ps) =>
        if hasParam ps "error" = true then
          (false, st, [Effect.serverStart, Effect.browserOpen, Effect.serverStop])
        else if hasParam ps "code" = false then
          (false, st, [Effect.serverStart, Effect.browserOpen, Effect.serverStop])
        else if truthy (firstParam ps "realmId") = false then
          (false, st, [Effect.serverStart, Effect.browserOpen, Effect.serverStop])
        else
          match env.exchange with
          | none =>
              (false, st,
               [Effect.serverStart, Effect.browserOpen, Effect.exchangeCall,
                Effect.serverStop])
          | some d =>
              (true,
               store_tokens env.now d.access_token d.refresh_token
                 (firstParam ps "realmId")
                 (orIntDefault d.x_refresh_token_expires_in 3600),
               [Effect.serverStart, Effect.browserOpen, Effect.exchangeCall,
                Effect.serverStop])

/-- AutoQBOAuthenticator.ensure_authenticated (auth.py lines 280-295):
reuse when already authenticated, else refresh when a refresh token is
held (Python truthiness), else — or when the refresh fails — run the full
interactive flow. -/
def ensure_authenticated (now : Nat) (st : TMState)
    (refresh_outcome : Option RefreshData) (env : OAuthEnv) :
    Bool × TMState × List Effect :=
  if is_authenticated now st.tokens = true then (true, st, [])
  else if truthy (get_refresh_token st.tokens) = true then
    let r := refresh_tokens now st refresh_outcome
    if r.1 = true then r
    else
      let p := perform_oauth_flow env r.2.1
      (p.1, p.2.1, r.2.2 ++ p.2.2)
  else perform_oauth_flow env st

/-- Modelled from the spec: revoke_tokens has no implementation under src/
(only the spec sections 4.4 and 8 describe it). Per the spec it is a no-op
returning false when no refresh token is held; otherwise it posts the
refresh token to the revocation endpoint and, in the reference behavior,
clears the persisted file and the in-memory record on a confirmed revoke,
surfacing the error (state preserved) otherwise. -/
def revoke_tokens (st : TMState) (remote_ok : Bool) :
    Bool × TMState × List Effect :=
  if truthy (get_refresh_token st.tokens) = false then (false, st, [])
  else if remote_ok = true then (true, clear_tokens st, [Effect.revokeCall])
  else (false, st, [Effect.revokeCall])

/-- Event set by OAuthHandler (oauth_flow.py): the handler thread either
records code and realmId or records an error; the waiting loop observes
whichever class attribute was set. -/
inductive InterEvent where
  | success (code realm : String)
  | errored (err : String)
  deriving DecidableEq, Repr

/-- The wait loop of run_interactive_oauth (oauth_flow.py lines 62-63):
polls the shared class attributes every half second with no timeout check
at all. `cb t` is what the attributes hold at poll t; `none` as the result
means the fuel ran out while the loop was still polling — with a silent
channel no amount of fuel produces an exit. -/
def run_interactive_wait (cb : Nat → Option InterEvent) :
    Nat → Nat → Option InterEvent
  | _, 0 => none
  | t, fuel + 1 =>
    match cb t with
    | some e => some e
    | none => run_interactive_wait cb (t + 1) fuel

/-- External environment of run_interactive_oauth. -/
structure InterEnv where
  auth_url_ok : Bool
  callback : Nat → Option InterEvent
  exchange : Option RefreshData

/-- run_interactive_oauth (oauth_flow.py lines 11-84) with the given poll
budget: `none` means the wait loop was still polling when the budget ran
out (the function has not returned). On an authorization-URL failure the
server is shut down and the exception re-raised; after the wait loop the
server is shut down before the error check and the code exchange. -/
def run_interactive_oauth (env : InterEnv) (fuel : Nat) :
    Option (Except String RefreshData × List Effect) :=
  if env.auth_url_ok = false then
    some (Except.error "authorization url error",
          [Effect.serverStart, Effect.serverStop])
  else
    match run_interactive_wait env.callback 0 fuel with
    | none => none
    | some (InterEvent.errored e) =>
        some (Except.error e,
              [Effect.serverStart, Effect.browserOpen, Effect.serverStop])
    | some (InterEvent.success _ _) =>
        match env.exchange with
        | none =>
            some (Except.error "token exchange failed",
                  [Effect.serverStart, Effect.browserOpen, Effect.serverStop,
                   Effect.exchangeCall])
        | some d =>
            some (Except.ok d,
                  [Effect.serverStart, Effect.browserOpen, Effect.serverStop,
                   Effect.exchangeCall])

/-- An HTTP GET request as the handlers see it: the urlparse path and the
parse_qs query parameters (parse_qs drops blank values, so a listed pair
always has a non-empty textual value in Python; the model keeps whatever
pairs were parsed). -/
structure Request where
  path : String
  query : List (String × String)
  deriving DecidableEq, Repr

/-- The class attributes of OAuthHandler (oauth_flow.py lines 16-20). -/
structure HandlerState where
  code : Option String
  realm_id : Option String
  error : Option String
  deriving DecidableEq, Repr

/-- Initial handler state: nothing captured yet. -/
def HandlerState.init : HandlerState :=
  ⟨none, none, none⟩

/-- OAuthHandler.do_GET (oauth_flow.py lines 21-39): the success branch
(code and realmId present and path exactly /callback) is checked first and
answers 200; otherwise a request carrying error records it and answers 400;
anything else answers 400 without recording. Returns the new handler state
and the HTTP status sent. -/
def OAuthHandler_do_GET (st : HandlerState) (r : Request) : HandlerState × Nat :=
  if hasParam r.query "code" = true ∧ hasParam r.query "realmId" = true ∧
      r.path = "/callback" then
    ({ st with code := firstParam r.query "code",
               realm_id := firstParam r.query "realmId" }, 200)
  else if hasParam r.query "error" = true then
    ({ st with error := firstParam r.query "error" }, 400)
  else (st, 400)

/-- CallbackHandler.do_GET (auth.py lines 26-48): any request whose path
starts with /callback stores the full callback URL and answers 200 — the
query parameters, error included, are never inspected; everything else
answers 404. The stored slot is modeled as the request itself. -/
def CallbackHandler_do_GET (st : Option Request) (r : Request) :
    Option Request × Nat :=
  if strStartsWith r.path "/callback" = true then (some r, 200) else (st, 404)

/-! ## Concrete states used by the witness theorems -/

/-- An environment whose interactive flow fails immediately (configuration
incomplete) and whose callback channel stays silent. -/
def envIdle : OAuthEnv :=
  ⟨false, false, false, fun _ => none, none, 0⟩

/-- An environment for a full run whose callback never arrives. -/
def envSilent : OAuthEnv :=
  ⟨true, true, true, fun _ => none, none, 0⟩

/-- An environment whose browser immediately hits the callback with an
error parameter. -/
def envDenied : OAuthEnv :=
  ⟨true, true, true, fun n => if n = 0 then some [("error", "access_denied")] else none,
   none, 0⟩

/-- A manager holding a usable record (token "tok" valid until time 100,
company "c"). -/
def stUsable : TMState :=
  ⟨⟨some "tok", some "ref", some "c", some "100", some "0"⟩, TokenFile.absent⟩

/-- A manager holding only a refresh token and a company id. -/
def stRefreshOnly : TMState :=
  ⟨⟨none, some "r", some "c", none, none⟩, TokenFile.absent⟩

/-- A record whose expires_at does not parse as a timestamp. -/
def tokensBadExpiry : Tokens :=
  ⟨some "tok", none, some "c", some "not-a-timestamp", none⟩

/-! ## Helper lemmas -/

/-- Reading back the JSON object written for a token dict recovers the
dict: each of the five keys is looked up at its unique position. -/
theorem tokensFromJson_toJson (t : Tokens) : tokensFromJson t.toJson = t := by
  cases t
  rfl

/-- The interactive flow performs no refresh calls: every branch of
perform_oauth_flow yields a trace free of Effect.refreshCall. -/
theorem perform_oauth_flow_count_refresh (env : OAuthEnv) (st : TMState) :
    ((perform_oauth_flow env st).2.2).count Effect.refreshCall = 0 := by
  unfold perform_oauth_flow
  repeat' split
  all_goals rfl

/-- With a silent callback channel through second 301, the wait loop of
_perform_oauth_flow reaches the timeout check with elapsed = 301 and
returns the timeout result. -/
theorem wait_timeout_fires (cb : Nat → Option (List (String × String))) :
    ∀ (fuel t : Nat), t ≤ 301 → 302 ≤ t + fuel →
      (∀ n, n ≤ 301 → cb n = none) →
      wait_for_callback cb t fuel = some WaitResult.timedOut := by
  intro fuel
  induction fuel with
  | zero => intro t h1 h2 _; omega
  | succ n ih =>
      intro t h1 h2 hcb
      unfold wait_for_callback
      rw [hcb t h1]
      by_cases h300 : 300 < t
      · rw [if_pos h300]
      · rw [if_neg h300]
        exact ih (t + 1) (by omega) (by omega) hcb

/-! ## Claim theorems -/

/-- C1: for every stored credential record that is usable — access_token
present, expires_at a parseable timestamp strictly in the future, and a
company id present — ensure_authenticated returns success immediately, with
the state untouched and an empty effect trace: no refresh call, no token
exchange, no interactive flow, no network operation at all. -/
theorem ensure_authenticated_usable_no_network
    (now : Nat) (st : TMState) (ro : Option RefreshData) (env : OAuthEnv)
    (a c : String) (e : Nat)
    (h1 : st.tokens.access_token = some a)
    (h2 : fromisoformat (st.tokens.expires_at.getD "") = some e)
    (h3 : now < e)
    (h4 : st.tokens.company_id = some c) :
    ensure_authenticated now st ro env = (true, st, []) := by
  have hne : st.tokens.isEmpty = false := by
    unfold Tokens.isEmpty
    rw [h1]
    rfl
  have hexp : ¬ e ≤ now := by omega
  have hga : get_access_token now st.tokens = some a := by
    unfold get_access_token
    rw [hne, h2]
    simp [hexp, h1]
  have hauth : is_authenticated now st.tokens = true := by
    unfold is_authenticated get_company_id
    rw [hga, h4]
    rfl
  unfold ensure_authenticated
  rw [hauth, if_pos rfl]

/-- Witness for C1 at a concrete usable record. -/
theorem ensure_authenticated_usable_no_network_witness :
    ensure_authenticated 5 stUsable none envIdle = (true, stUsable, []) :=
  ensure_authenticated_usable_no_network 5 stUsable none envIdle
    "tok" "c" 100 rfl rfl (by decide) rfl

/-- C3: after every successful token refresh, the persisted record holds
exactly the refresh token the refresh operation returned; the record
written to the token file carries that token under the refresh_token key,
so the pre-refresh refresh token is never written back (the two coincide
only when the provider did not rotate it). -/
theorem refresh_persists_returned_token
    (now : Nat) (st : TMState) (d : RefreshData)
    (h : truthy (get_refresh_token st.tokens) = true) :
    (refresh_tokens now st (some d)).1 = true ∧
    (refresh_tokens now st (some d)).2.1.tokens.refresh_token = some d.refresh_token ∧
    (refresh_tokens now st (some d)).2.1.file =
      TokenFile.json ((refresh_tokens now st (some d)).2.1.tokens.toJson) ∧
    ((refresh_tokens now st (some d)).2.1.tokens.toJson.lookup "refresh_token") =
      some (some d.refresh_token) := by
  unfold refresh_tokens
  rw [h]
  exact ⟨rfl, rfl, rfl, rfl⟩

/-- Witness for C3: a refresh that rotates the token "r" into "nr". -/
theorem refresh_persists_returned_token_witness :
    (refresh_tokens 0 stRefreshOnly (some ⟨"na", "nr", some 7⟩)).1 = true ∧
    (refresh_tokens 0 stRefreshOnly (some ⟨"na", "nr", some 7⟩)).2.1.tokens.refresh_token =
      some "nr" ∧
    (refresh_tokens 0 stRefreshOnly (some ⟨"na", "nr", some 7⟩)).2.1.file =
      TokenFile.json
        ((refresh_tokens 0 stRefreshOnly (some ⟨"na", "nr", some 7⟩)).2.1.tokens.toJson) ∧
    ((refresh_tokens 0 stRefreshOnly (some ⟨"na", "nr", some 7⟩)).2.1.tokens.toJson.lookup
        "refresh_token") = some (some "nr") :=
  refresh_persists_returned_token 0 stRefreshOnly ⟨"na", "nr", some 7⟩ (by decide)

/-- C9: revoke_tokens (modelled from the spec, which is its only source)
is a no-op returning false when no refresh token is held — no network call,
no file deletion, state returned unchanged — and on a held refresh token
with a successful remote revoke it clears the in-memory record and removes
the token file. -/
theorem revoke_tokens_lifecycle (st : TMState) (ok : Bool) :
    (truthy (get_refresh_token st.tokens) = false →
      revoke_tokens st ok = (false, st, [])) ∧
    (truthy (get_refresh_token st.tokens) = true →
      revoke_tokens st true =
        (true, ⟨Tokens.empty, TokenFile.absent⟩, [Effect.revokeCall])) := by
  constructor
  · intro h
    unfold revoke_tokens
    rw [h, if_pos rfl]
  · intro h
    unfold revoke_tokens
    rw [h]
    rfl

/-- Witness for C9: the empty manager is a no-op; a held refresh token with
a confirmed remote revoke clears memory and file. -/
theorem revoke_tokens_lifecycle_witness :
    revoke_tokens TMState.init true = (false, TMState.init, []) ∧
    revoke_tokens stRefreshOnly true =
      (true, ⟨Tokens.empty, TokenFile.absent⟩, [Effect.revokeCall]) :=
  ⟨(revoke_tokens_lifecycle TMState.init true).1 (by decide),
   (revoke_tokens_lifecycle stRefreshOnly true).2 (by decide)⟩

/-- C10: for every in-memory token record whose expires_at is absent (the
dict lookup falls back to the empty string) or holds an unparseable
timestamp, get_access_token returns none and is_authenticated is false,
even when an access_token string is present; get_access_token only reads
the record, which the pure function type makes evident. -/
theorem get_access_token_bad_expiry (now : Nat) (t : Tokens)
    (h : fromisoformat (t.expires_at.getD "") = none) :
    get_access_token now t = none ∧ is_authenticated now t = false := by
  have hg : get_access_token now t = none := by
    unfold get_access_token
    rw [h]
    simp
  refine ⟨hg, ?_⟩
  unfold is_authenticated
  rw [hg]
  rfl

/-- Witness for C10: a record with an access token, a company id, and a
non-timestamp expires_at is rejected. -/
theorem get_access_token_bad_expiry_witness :
    get_access_token 0 tokensBadExpiry = none ∧
    is_authenticated 0 tokensBadExpiry = false :=
  get_access_token_bad_expiry 0 tokensBadExpiry (by decide)

/-- C2: for every manager state that is not usable but holds a (truthy)
refresh token, ensure_authenticated performs exactly one refresh call
whatever the refresh outcome, and when the refresh fails (the exception
case of auth_client.refresh) the run is exactly: one refresh call followed
by one full run of the interactive flow, whose result and state become the
result and state of ensure_authenticated — no retry loop on either
operation. -/
theorem ensure_authenticated_refresh_once
    (now : Nat) (st : TMState) (ro : Option RefreshData) (env : OAuthEnv)
    (h1 : is_authenticated now st.tokens = false)
    (h2 : truthy (get_refresh_token st.tokens) = true) :
    ((ensure_authenticated now st ro env).2.2).count Effect.refreshCall = 1 ∧
    ensure_authenticated now st none env =
      ((perform_oauth_flow env st).1, (perform_oauth_flow env st).2.1,
        Effect.refreshCall :: (perform_oauth_flow env st).2.2) := by
  have hfail : refresh_tokens now st none = (false, st, [Effect.refreshCall]) := by
    unfold refresh_tokens
    rw [h2]
    rfl
  constructor
  · unfold ensure_authenticated
    rw [h1, if_neg (by simp), h2, if_pos rfl]
    cases ro with
    | none =>
        rw [hfail]
        show List.count Effect.refreshCall
          ([Effect.refreshCall] ++ (perform_oauth_flow env st).2.2) = 1
        rw [List.count_append, perform_oauth_flow_count_refresh env st]
        rfl
    | some d =>
        have hok : refresh_tokens now st (some d) =
            (true,
             store_tokens now d.access_token d.refresh_token
               (get_company_id st.tokens)
               (orIntDefault d.x_refresh_token_expires_in 3600),
             [Effect.refreshCall]) := by
          unfold refresh_tokens
          rw [h2]
          rfl
        rw [hok]
        rfl
  · unfold ensure_authenticated
    rw [h1, if_neg (by simp), h2, if_pos rfl, hfail]
    rfl

/-- Witness for C2: a manager with only a refresh token, a failing refresh,
and an unconfigured environment. -/
theorem ensure_authenticated_refresh_once_witness :
    ((ensure_authenticated 0 stRefreshOnly none envIdle).2.2).count
        Effect.refreshCall = 1 ∧
    ensure_authenticated 0 stRefreshOnly none envIdle =
      ((perform_oauth_flow envIdle stRefreshOnly).1,
       (perform_oauth_flow envIdle stRefreshOnly).2.1,
        Effect.refreshCall :: (perform_oauth_flow envIdle stRefreshOnly).2.2) :=
  ensure_authenticated_refresh_once 0 stRefreshOnly none envIdle
    (by decide) (by decide)

/-- C4 counterexample: the claim says save serializes the four fields
access_token, refresh_token, realm_id and environment, but store_tokens
writes exactly the keys access_token, refresh_token, company_id,
expires_at, created_at — there is no environment key in the persisted
object (environment lives in the process configuration, not in the
record), refuting the claim at this concrete record. -/
theorem store_tokens_no_environment_key :
    ((store_tokens 0 "a" "r" (some "c") 3600).tokens.toJson.map Prod.fst =
      ["access_token", "refresh_token", "company_id", "expires_at",
       "created_at"]) ∧
    ((store_tokens 0 "a" "r" (some "c") 3600).tokens.toJson.lookup
        "environment" = none) := by
  constructor
  · rfl
  · rfl

/-- C4 as amended: saving a record and loading it back yields a record
whose access_token, refresh_token and company id (realm) are identical to
the saved ones — indeed the whole dict round-trips, timestamps included;
the serialized fields are the five keys of store_tokens, and environment
is not among them. -/
theorem store_load_round_trip (now : Nat) (access refresh : String)
    (company : Option String) (expires_in : Nat) :
    load_tokens (store_tokens now access refresh company expires_in).file =
      (store_tokens now access refresh company expires_in).tokens ∧
    (store_tokens now access refresh company expires_in).tokens.access_token =
      some access ∧
    (store_tokens now access refresh company expires_in).tokens.refresh_token =
      some refresh ∧
    (store_tokens now access refresh company expires_in).tokens.company_id =
      company := by
  refine ⟨?_, rfl, rfl, rfl⟩
  exact tokensFromJson_toJson _

/-- C5 counterexample: the claim says the credential-store load operation
never raises, but the load_tokens variant of services/qbo.py does not guard
open/json.load, so a malformed token file propagates the JSONDecodeError
and an unreadable one the OSError, refuting the claim at those concrete
file states. -/
theorem load_tokens_qbo_raises_on_malformed :
    load_tokens_qbo TokenFile.malformed = Except.error "JSONDecodeError" ∧
    load_tokens_qbo TokenFile.unreadable = Except.error "OSError" := by
  constructor
  · rfl
  · rfl

/-- C5 as amended: on a missing, unreadable or malformed token file the
loads of auth.py and utils/auth.py return the empty record and never raise
(both are total functions), while the services/qbo.py variant returns the
empty record only when the file is missing and raises otherwise. -/
theorem load_tokens_degrades_to_empty (f : TokenFile)
    (h : f = TokenFile.absent ∨ f = TokenFile.unreadable ∨
         f = TokenFile.malformed) :
    load_tokens f = Tokens.empty ∧ load_tokens_utils f = [] ∧
    (load_tokens_qbo f = Except.ok [] ↔ f = TokenFile.absent) := by
  rcases h with h | h | h <;> subst h
  · exact ⟨rfl, rfl, Iff.intro (fun _ => rfl) (fun _ => rfl)⟩
  · exact ⟨rfl, rfl, Iff.intro (fun hx => by cases hx) (fun hx => by cases hx)⟩
  · exact ⟨rfl, rfl, Iff.intro (fun hx => by cases hx) (fun hx => by cases hx)⟩

/-- Witness for C5 as amended, at the malformed file state. -/
theorem load_tokens_degrades_to_empty_witness :
    load_tokens TokenFile.malformed = Tokens.empty ∧
    load_tokens_utils TokenFile.malformed = [] ∧
    (load_tokens_qbo TokenFile.malformed = Except.ok [] ↔
      TokenFile.malformed = TokenFile.absent) :=
  load_tokens_degrades_to_empty TokenFile.malformed (Or.inr (Or.inr rfl))

/-- C6 counterexample: the claim says every request whose query parameters
carry an error value is answered 400 with the error recorded, but a request
to /callback carrying code, realmId and error together takes OAuthHandler's
success branch first: status 200 and no error recorded; and auth.py's
CallbackHandler answers 200 to any /callback request, an error-carrying one
included (it never answers 400 at all). -/
theorem oauth_handler_error_answered_200 :
    (OAuthHandler_do_GET HandlerState.init
        (Request.mk "/callback"
          [("code", "abc"), ("realmId", "999"),
           ("error", "access_denied")])).2 = 200 ∧
    (OAuthHandler_do_GET HandlerState.init
        (Request.mk "/callback"
          [("code", "abc"), ("realmId", "999"),
           ("error", "access_denied")])).1.error = none ∧
    (CallbackHandler_do_GET none
        (Request.mk "/callback" [("error", "access_denied")])).2 = 200 := by
  refine ⟨?_, ?_, ?_⟩ <;> decide

/-- C6 as amended: in OAuthHandler, a request whose query parameters carry
an error value and which is not a successful callback (path /callback with
both code and realmId) records the first error value and is answered 400,
while a request to /callback carrying code and realmId is answered 200 with
both recorded — even if an error parameter is also present. -/
theorem oauth_handler_responses (st : HandlerState) (r : Request) :
    (hasParam r.query "error" = true →
      ¬ (hasParam r.query "code" = true ∧ hasParam r.query "realmId" = true ∧
          r.path = "/callback") →
      (OAuthHandler_do_GET st r).2 = 400 ∧
      (OAuthHandler_do_GET st r).1.error = firstParam r.query "error") ∧
    (hasParam r.query "code" = true → hasParam r.query "realmId" = true →
      r.path = "/callback" →
      (OAuthHandler_do_GET st r).2 = 200 ∧
      (OAuthHandler_do_GET st r).1.code = firstParam r.query "code" ∧
      (OAuthHandler_do_GET st r).1.realm_id = firstParam r.query "realmId") := by
  constructor
  · intro herr hnot
    unfold OAuthHandler_do_GET
    rw [if_neg hnot, if_pos herr]
    exact ⟨rfl, rfl⟩
  · intro hc hr hp
    unfold OAuthHandler_do_GET
    rw [if_pos ⟨hc, hr, hp⟩]
    exact ⟨rfl, rfl, rfl⟩

/-- Witness for C6 as amended: a denial redirect and a success redirect. -/
theorem oauth_handler_responses_witness :
    (OAuthHandler_do_GET HandlerState.init
        (Request.mk "/callback" [("error", "access_denied")])).2 = 400 ∧
    (OAuthHandler_do_GET HandlerState.init
        (Request.mk "/callback" [("code", "abc"), ("realmId", "999")])).2 = 200 :=
  ⟨((oauth_handler_responses HandlerState.init
      (Request.mk "/callback" [("error", "access_denied")])).1
      (by decide) (by decide)).1,
   ((oauth_handler_responses HandlerState.init
      (Request.mk "/callback" [("code", "abc"), ("realmId", "999")])).2
      (by decide) (by decide) rfl).1⟩

/-- C7 counterexample: the claim says the interactive flow's wait is
bounded by an absolute 300-second timeout, but the run_interactive_oauth
variant (oauth_flow.py) polls every half second with no timeout check:
with a silent callback channel it is still inside the wait loop after 700
polls (350 simulated seconds), having produced no exit and no failure
report. -/
theorem run_interactive_oauth_never_times_out :
    run_interactive_oauth (InterEnv.mk true (fun _ => none) none) 700 = none := by
  set_option maxRecDepth 4000 in rfl

/-- C7 as amended: in the flow ensure_authenticated actually drives
(auth.py _perform_oauth_flow), the wait loop checks the callback slot each
second and gives up once more than 300 seconds have elapsed, so with no
redirect through second 301 the loop exits with the timeout result and the
whole flow reports failure with the state untouched; the
run_interactive_oauth variant has no such bound. -/
theorem perform_oauth_flow_times_out (env : OAuthEnv) (st : TMState)
    (hcfg : env.configured = true) (hsrv : env.server_start_ok = true)
    (hurl : env.auth_url_ok = true)
    (hcb : ∀ n, n ≤ 301 → env.callback n = none) :
    wait_for_callback env.callback 0 302 = some WaitResult.timedOut ∧
    perform_oauth_flow env st =
      (false, st, [Effect.serverStart, Effect.browserOpen, Effect.serverStop]) := by
  have hw := wait_timeout_fires env.callback 302 0 (by omega) (by omega) hcb
  refine ⟨hw, ?_⟩
  unfold perform_oauth_flow
  rw [if_neg (by simp [hcfg]), if_neg (by simp [hsrv]), if_neg (by simp [hurl]),
      hw]

/-- Witness for C7 as amended: a fully configured flow whose callback never
arrives. -/
theorem perform_oauth_flow_times_out_witness :
    wait_for_callback envSilent.callback 0 302 = some WaitResult.timedOut ∧
    perform_oauth_flow envSilent TMState.init =
      (false, TMState.init,
       [Effect.serverStart, Effect.browserOpen, Effect.serverStop]) :=
  perform_oauth_flow_times_out envSilent TMState.init rfl rfl rfl
    (fun _ _ => rfl)

/-- C8: on every exit path of the interactive OAuth flow the callback
listener is shut down before the flow returns. For _perform_oauth_flow
(auth.py, finally clause) every trace that starts the server ends with the
shutdown; for run_interactive_oauth (oauth_flow.py) every completed run —
success, denial, or exchange failure — contains the shutdown (there it
precedes the code exchange). -/
theorem oauth_flow_listener_shutdown :
    (∀ (env : OAuthEnv) (st : TMState),
      Effect.serverStart ∈ (perform_oauth_flow env st).2.2 →
      (perform_oauth_flow env st).2.2.getLast? = some Effect.serverStop) ∧
    (∀ (env : InterEnv) (fuel : Nat)
        (out : Except String RefreshData × List Effect),
      run_interactive_oauth env fuel = some out →
      Effect.serverStop ∈ out.2) := by
  constructor
  · intro env st
    unfold perform_oauth_flow
    repeat' split
    all_goals intro h
    all_goals first
      | rfl
      | cases h
  · intro env fuel out h
    unfold run_interactive_oauth at h
    split at h
    · have h2 := Option.some.inj h
      subst h2
      decide
    · split at h
      · cases h
      · have h2 := Option.some.inj h
        subst h2
        show Effect.serverStop ∈
          [Effect.serverStart, Effect.browserOpen, Effect.serverStop]
        decide
      · split at h
        · have h2 := Option.some.inj h
          subst h2
          decide
        · have h2 := Option.some.inj h
          subst h2
          show Effect.serverStop ∈
            [Effect.serverStart, Effect.browserOpen, Effect.serverStop,
             Effect.exchangeCall]
          decide

/-- Witness for C8: a denial callback through auth.py's flow, and an
immediate denial through run_interactive_oauth. -/
theorem oauth_flow_listener_shutdown_witness :
    (perform_oauth_flow envDenied TMState.init).2.2.getLast? =
      some Effect.serverStop ∧
    Effect.serverStop ∈
      ((Except.error "access_denied",
        [Effect.serverStart, Effect.browserOpen, Effect.serverStop]) :
          Except String RefreshData × List Effect).2 :=
  ⟨oauth_flow_listener_shutdown.1 envDenied TMState.init (by decide),
   oauth_flow_listener_shutdown.2
     (InterEnv.mk true (fun _ => some (InterEvent.errored "access_denied")) none) 5
     (Except.error "access_denied",
      [Effect.serverStart, Effect.browserOpen, Effect.serverStop]) rfl⟩

end QboMcp
